import Mathlib

/-!
Shallow embedding of a Playwright tutorial-augmentation library.

Source files embedded here:
* `lib/tutorial.ts` — the `Tutorial` session class: activation guard,
  Driver.js overlay lifecycle, two narration backends (Web Speech API and
  edge-tts), and the audio-chunk ledger with capture-time offsets.
* `lib/audio-merger.ts` — `mergeAudioWithVideo`: the post-session ffmpeg
  pipeline that mixes the ledger's chunks into a recorded video.

Modelling conventions:
* JS wall-clock time (`Date.now()`, awaited delays) is an explicit `clock`
  field of the session state, advanced by environment-supplied durations.
* The JS heap is modelled only as far as the claims need it: the session's
  `_audioChunks` array lives in a `Store` of array cells addressed by a
  reference, so that returning the array itself (versus a snapshot) is an
  observable fact.
* External collaborators (Playwright page, the speech catalog, the remote
  synthesis service, subprocesses, the filesystem) are modelled by
  environment records that fix each call's outcome; functions are total and
  JS exceptions are an explicit `Except` component.
-/

namespace PwTutorial

/-- One synthesized narration buffer plus its capture offset
(interface `AudioChunk` in `lib/tutorial.ts`). -/
structure AudioChunk where
  buffer : List Nat
  offsetMs : Int
deriving DecidableEq, Repr

/-- Heap of JS array objects holding `AudioChunk` lists. A `Tutorial`
instance owns one such array (`this._audioChunks`) through a reference, so
aliasing through the value returned by `getAudioChunks()` is observable. -/
structure Store where
  next : Nat
  cells : Nat → List AudioChunk

def Store.empty : Store := { next := 0, cells := fun _ => [] }

/-- Dereference an array cell. -/
def Store.read (st : Store) (r : Nat) : List AudioChunk := st.cells r

/-- Overwrite an array cell. -/
def Store.write (st : Store) (r : Nat) (v : List AudioChunk) : Store :=
  { st with cells := fun i => if i = r then v else st.cells i }

/-- JS `array.push(c)` through a reference. -/
def Store.push (st : Store) (r : Nat) (c : AudioChunk) : Store :=
  st.write r (st.read r ++ [c])

/-- Allocate a fresh empty array (`this._audioChunks = []` in the
constructor), returning the updated store and the new reference. -/
def Store.alloc (st : Store) : Store × Nat :=
  ({ next := st.next + 1, cells := fun i => if i = st.next then [] else st.cells i },
   st.next)

/-- The two narration backends (`this._ttsBackend`). -/
inductive TtsBackend
  | webSpeechApi
  | edgeTts
deriving DecidableEq, Repr

/-- Observable page/process interactions issued by the session
(Playwright calls in `lib/tutorial.ts`). -/
inductive Effect
  | addStyleTag
  | addScriptTag
  | waitForFunction
  | waitForSelector
  | locatorWaitFor
  | evalHighlight (hasPopover : Bool)
  | waitForTimeout
  | pageEvaluate
  | evalDestroy
deriving DecidableEq, Repr

/-- A trace of effects, each stamped with the wall clock at which it was
issued. -/
abbrev Trace := List (Int × Effect)

/-- JS exceptions that can escape the embedded functions. -/
inductive JsError
  | resolutionError
  | couldNotResolveElement
  | synthesisFailed
deriving DecidableEq, Repr

/-- Resolution path of the in-page Web Speech API promise in
`_speakWebSpeechApi`: every path below calls `resolve()`. -/
inductive WebSpeechScenario
  | noVoices
  | utteranceEnd
  | utteranceError
  | safetyTimeout
deriving DecidableEq, Repr

/-- Environment for one `_speakWebSpeechApi` call: which in-page path
resolves the promise and how long the whole page evaluation takes. -/
structure WebSpeechEnv where
  scenario : WebSpeechScenario
  durationMs : Nat
deriving DecidableEq, Repr

/-- Outcome of `tts.synthesize(...)` / `tts.toBase64()`: the synthesized
audio bytes, or a raised error (network or encoding failure). -/
inductive SynthOutcome
  | ok (buffer : List Nat)
  | throws
deriving DecidableEq, Repr

/-- Resolution path of the in-page playback promise in `_speakEdgeTts`:
`audio.onended`, `audio.onerror`, the 30 s safety timer, or a rejected
`audio.play()` — every path calls `resolve()`. -/
inductive PlaybackOutcome
  | ended
  | error
  | safetyTimeout
  | playRejected
deriving DecidableEq, Repr

/-- Environment for one `_speakEdgeTts` call. -/
structure EdgeTtsEnv where
  synth : SynthOutcome
  synthLatencyMs : Nat
  playback : PlaybackOutcome
  playbackMs : Nat
deriving DecidableEq, Repr

/-- Environment for one `_speak` dispatch; the backend picks its half. -/
structure NarrationEnv where
  web : WebSpeechEnv
  edge : EdgeTtsEnv
deriving DecidableEq, Repr

/-- The `Tutorial` class fields. `_page` is an external collaborator and
carries no model state; the `framenavigated` subscription (which resets
`_injected`) is outside the modelled call surface. -/
structure Tutorial where
  _active : Bool
  _ttsBackend : TtsBackend
  _audioChunks : Nat
  _startTime : Int
  _injected : Bool
deriving Repr

/-- Mutable world of one session: the instance fields, the array heap, and
the wall clock (`Date.now()`). -/
structure SessionState where
  tut : Tutorial
  store : Store
  clock : Int

/-- Constructor `new Tutorial(page, active)`: allocates the empty ledger,
selects the backend from the `TTS` environment variable
(`process.env.TTS === 'edge-tts'`), starts with `_startTime = 0` and
`_injected = false`. -/
def Tutorial.create (store : Store) (active : Bool) (ttsEnv : Option String) :
    Store × Tutorial :=
  match store.alloc with
  | (store1, r) =>
    (store1,
     { _active := active
       _ttsBackend := if ttsEnv = some "edge-tts" then .edgeTts else .webSpeechApi
       _audioChunks := r
       _startTime := 0
       _injected := false })

/-- Method `setStartTime(t)`: record the reference instant for offset tracking. -/
def Tutorial.setStartTime (s : SessionState) (t : Int) : SessionState :=
  { s with tut := { s.tut with _startTime := t } }

/-- Method `getAudioChunks()`: `return this._audioChunks;` — the ledger array
itself, by reference. -/
def Tutorial.getAudioChunks (s : SessionState) : Nat :=
  s.tut._audioChunks

/-- Method `_ensureDriverJs()`: injects Driver.js CSS/JS and waits for the global
once per navigation epoch; subsequent calls return immediately. -/
def Tutorial._ensureDriverJs (s : SessionState) : SessionState × Trace :=
  if s.tut._injected then (s, [])
  else
    ({ s with tut := { s.tut with _injected := true } },
     [(s.clock, Effect.addStyleTag), (s.clock, Effect.addScriptTag),
      (s.clock, Effect.waitForFunction)])

/-- Method `_speakWebSpeechApi(text, options)`: one `page.evaluate` whose in-page
promise resolves on every path — empty voice catalog after the bounded
wait (skip speech), utterance `onend`, utterance `onerror`, or the 30 s
safety timer. `rate`/`pitch`/`lang` only shape the utterance. -/
def Tutorial._speakWebSpeechApi (s : SessionState) (_text : String)
    (env : WebSpeechEnv) : SessionState × Trace × Except JsError Unit :=
  let s1 := { s with clock := s.clock + env.durationMs }
  let tr : Trace := [(s.clock, Effect.pageEvaluate)]
  match env.scenario with
  | .noVoices => (s1, tr, .ok ())
  | .utteranceEnd => (s1, tr, .ok ())
  | .utteranceError => (s1, tr, .ok ())
  | .safetyTimeout => (s1, tr, .ok ())

/-- Body of `_speakEdgeTts` (the code inside its `try`). The offset is
captured from the clock BEFORE synthesis; a chunk is pushed only when
`offsetMs >= 0`; the playback evaluation's in-page promise resolves on all
four paths. A synthesis/encoding failure raises. -/
def Tutorial._speakEdgeTtsRun (s : SessionState) (_text : String)
    (env : EdgeTtsEnv) : SessionState × Trace × Except JsError Unit :=
  let offsetMs : Int := if 0 < s.tut._startTime then s.clock - s.tut._startTime else -1
  match env.synth with
  | .throws =>
    ({ s with clock := s.clock + env.synthLatencyMs }, [], .error .synthesisFailed)
  | .ok buf =>
    let s1 := { s with clock := s.clock + env.synthLatencyMs }
    let s2 :=
      if 0 ≤ offsetMs then
        { s1 with store := s1.store.push s.tut._audioChunks ⟨buf, offsetMs⟩ }
      else s1
    let s3 := { s2 with clock := s2.clock + env.playbackMs }
    let tr : Trace := [(s2.clock, Effect.pageEvaluate)]
    match env.playback with
    | .ended => (s3, tr, .ok ())
    | .error => (s3, tr, .ok ())
    | .safetyTimeout => (s3, tr, .ok ())
    | .playRejected => (s3, tr, .ok ())

/-- Method `_speakEdgeTts(text, options)`: the whole body runs inside
`try { ... } catch { /* graceful degradation */ }`, so any raised error is
swallowed and the state reached at the raise point is kept. -/
def Tutorial._speakEdgeTts (s : SessionState) (text : String)
    (env : EdgeTtsEnv) : SessionState × Trace × Except JsError Unit :=
  match Tutorial._speakEdgeTtsRun s text env with
  | (s1, tr, _) => (s1, tr, .ok ())

/-- Method `_speak(text, options)`: dispatch on the configured backend. -/
def Tutorial._speak (s : SessionState) (text : String) (env : NarrationEnv) :
    SessionState × Trace × Except JsError Unit :=
  match s.tut._ttsBackend with
  | .edgeTts => Tutorial._speakEdgeTts s text env.edge
  | .webSpeechApi => Tutorial._speakWebSpeechApi s text env.web

/-- Method `speak(text, options)`: `if (!this._active) return;` then dispatch. -/
def Tutorial.speak (s : SessionState) (text : String) (env : NarrationEnv) :
    SessionState × Trace × Except JsError Unit :=
  if s.tut._active then Tutorial._speak s text env
  else (s, [], .ok ())

/-- Highlight options (`HighlightOptions`): popover chrome, display
duration, and optional speech text. `none` models an absent (undefined)
field. -/
structure HighlightOptions where
  title : Option String := none
  text : Option String := none
  timeout : Option Nat := none
  speech : Option String := none
deriving DecidableEq, Repr

/-- JS truthiness of an optional string: `undefined` and `''` are falsy
(used by `!!(options.title || options.text)` and `if (options.speech)`). -/
def strTruthy (o : Option String) : Bool :=
  match o with
  | none => false
  | some s => !s.isEmpty

/-- The speech text that `if (options.speech)` actually acts on: `none`
when the field is absent or the empty string. -/
def speechText (o : Option String) : Option String :=
  match o with
  | none => none
  | some s => if s.isEmpty then none else some s

/-- The `target` argument of `highlight`: a CSS selector string or a
Playwright `Locator`. -/
inductive Target
  | selector (sel : String)
  | locatorTarget
deriving DecidableEq, Repr

/-- Outcome of resolving the target to a visible element: resolved with a
non-null handle, a visibility-wait timeout (the host throws), or a null
handle from `elementHandle()` (the code's own guard throws). -/
inductive ResolveOutcome
  | resolved
  | neverVisible
  | nullHandle
deriving DecidableEq, Repr

/-- Environment for one `highlight` call. -/
structure HighlightEnv where
  resolve : ResolveOutcome
  narration : NarrationEnv
deriving DecidableEq, Repr

/-- Default display duration (`DEFAULT_HIGHLIGHT_TIMEOUT`). -/
def DEFAULT_HIGHLIGHT_TIMEOUT : Nat := 3000

/-- Method `_highlightElement(handle, options)`: ensure Driver.js, evaluate the
highlight (popover chrome iff `title` or `text` is truthy), then await
`Promise.all` of the display-duration timer and — when `options.speech`
is truthy — the narration; the join completes when the slower of the two
does, and only then is the overlay destroyed by a final evaluation. -/
def Tutorial._highlightElement (s : SessionState) (opts : HighlightOptions)
    (env : NarrationEnv) : SessionState × Trace :=
  let e := Tutorial._ensureDriverJs s
  let s1 := e.1
  let hasPopover := strTruthy opts.title || strTruthy opts.text
  let trPre : Trace := e.2 ++ [(s1.clock, Effect.evalHighlight hasPopover)]
  let displayDur : Int := (opts.timeout.getD DEFAULT_HIGHLIGHT_TIMEOUT : Nat)
  match speechText opts.speech with
  | none =>
    let endClock := s1.clock + displayDur
    ({ s1 with clock := endClock },
     (trPre ++ [(s1.clock, Effect.waitForTimeout)]) ++ [(endClock, Effect.evalDestroy)])
  | some t =>
    let r := Tutorial._speak s1 t env
    let sN := r.1
    let narrDur := sN.clock - s1.clock
    let endClock := s1.clock + max displayDur narrDur
    ({ sN with clock := endClock },
     (trPre ++ [(s1.clock, Effect.waitForTimeout)] ++ r.2.1) ++ [(endClock, Effect.evalDestroy)])

/-- The host-collaborator wait a `highlight` call issues to resolve its
target: `page.waitForSelector` for a selector string, `locator.waitFor`
for a `Locator`. -/
def resolveEffect : Target → Effect
  | .selector _ => Effect.waitForSelector
  | .locatorTarget => Effect.locatorWaitFor

/-- Method `highlight(target, options)`: `if (!this._active) return;`, resolve the
target to a visible element (raising on timeout or a null handle), then run
`_highlightElement`. -/
def Tutorial.highlight (s : SessionState) (target : Target)
    (opts : HighlightOptions) (env : HighlightEnv) :
    SessionState × Trace × Except JsError Unit :=
  if s.tut._active then
    let resEffect := resolveEffect target
    match env.resolve with
    | .neverVisible => (s, [(s.clock, resEffect)], .error .resolutionError)
    | .nullHandle => (s, [(s.clock, resEffect)], .error .couldNotResolveElement)
    | .resolved =>
      match Tutorial._highlightElement s opts env.narration with
      | (s1, tr) => (s1, (s.clock, resEffect) :: tr, .ok ())
  else (s, [], .ok ())

/-- One public augmentation call on a session (`speak` or `highlight`). -/
inductive SessionCall
  | speakCall (text : String) (env : NarrationEnv)
  | highlightCall (target : Target) (opts : HighlightOptions) (env : HighlightEnv)

/-- Run one call. -/
def runCall (s : SessionState) : SessionCall → SessionState × Trace × Except JsError Unit
  | .speakCall text env => Tutorial.speak s text env
  | .highlightCall target opts env => Tutorial.highlight s target opts env

/-- Run a sequence of awaited calls, stopping at the first raised error
(as a test body would). -/
def runCalls (s : SessionState) (calls : List SessionCall) : SessionState × Trace :=
  match calls with
  | [] => (s, [])
  | c :: rest =>
    match runCall s c with
    | (s1, tr1, .error _) => (s1, tr1)
    | (s1, tr1, .ok _) =>
      match runCalls s1 rest with
      | (s2, tr2) => (s2, tr1 ++ tr2)

/-! ## The AV merge pipeline (`lib/audio-merger.ts`) -/

/-- Flat filesystem abstraction: which file paths and directories exist.
`mkdtempSync` yields a fresh directory whose only entries are the files
this function writes, so its `unlinkSync`/`rmdirSync` cleanup calls
succeed. -/
structure FsState where
  files : List String
  dirs : List String
deriving DecidableEq, Repr

def FsState.addFile (fs : FsState) (f : String) : FsState :=
  { fs with files := fs.files ++ [f] }

def FsState.removeFile (fs : FsState) (f : String) : FsState :=
  { fs with files := fs.files.filter (fun g => g ≠ f) }

def FsState.addDir (fs : FsState) (d : String) : FsState :=
  { fs with dirs := fs.dirs ++ [d] }

def FsState.removeDir (fs : FsState) (d : String) : FsState :=
  { fs with dirs := fs.dirs.filter (fun g => g ≠ d) }

/-- Structured form of the constructed ffmpeg invocation. -/
structure FfmpegCmd where
  videoInput : String
  /-- Silent bed `-f lavfi -t D -i anullsrc=r=48000:cl=stereo` when `some D`. -/
  silence : Option ℚ
  chunkInputs : List String
  /-- One `adelay` per chunk: (ffmpeg input index, delay ms, output label). -/
  adelayFilters : List (Nat × Int × Nat)
  /-- Mix `amix=inputs=N`. -/
  amixInputs : Nat
  /-- Flag `:normalize=0` — loudness normalization disabled. -/
  normalize : Bool
  /-- Flag `-c:v copy`. -/
  videoCodecCopy : Bool
  /-- Flag `-c:a libopus`. -/
  audioCodec : String
  output : String
deriving DecidableEq, Repr

/-- Temp chunk file paths: `path.join(tmpDir, `chunk-${i}.mp3`)`. -/
def chunkTmpFiles (tmpDir : String) (n : Nat) : List String :=
  (List.range n).map (fun i => tmpDir ++ "/chunk-" ++ toString i ++ ".mp3")

/-- Build the ffmpeg command exactly as the source does: a silent
`anullsrc` bed at input 1 iff the probed duration parsed to a positive
number (`!isNaN(videoDuration) && videoDuration > 0`); chunk inputs start
after the video and the optional silence; one `adelay` per chunk at its
recorded offset; a single `amix` over the chunks plus the optional bed. -/
def buildFfmpegCmd (videoPath : String) (chunks : List AudioChunk)
    (outputPath tmpDir : String) (videoDuration : Option ℚ) : FfmpegCmd :=
  let hasSilenceTrack := match videoDuration with
    | none => false
    | some d => decide (0 < d)
  let chunkInputOffset := if hasSilenceTrack then 2 else 1
  { videoInput := videoPath
    silence := if hasSilenceTrack then videoDuration else none
    chunkInputs := chunkTmpFiles tmpDir chunks.length
    adelayFilters := chunks.enum.map (fun p => (p.1 + chunkInputOffset, p.2.offsetMs, p.1))
    amixInputs := chunks.length + (if hasSilenceTrack then 1 else 0)
    normalize := false
    videoCodecCopy := true
    audioCodec := "libopus"
    output := outputPath }

/-- Observable effects of one merge run. -/
inductive MergeEffect
  | execProbe
  | mkdtemp (dir : String)
  | writeChunk (path : String)
  | execFfmpeg (cmd : FfmpegCmd)
  | unlink (path : String)
  | rmdir (dir : String)
deriving DecidableEq, Repr

/-- Errors `mergeAudioWithVideo` can raise. -/
inductive MergeError
  | probeFailed
  | ffmpegFailed
deriving DecidableEq, Repr

/-- Outcome of the `ffprobe` subprocess: a raised `execSync` error, or
captured stdout whose trimmed text parses (JS `parseFloat`) to the given
value — `none` standing for `NaN` (unparsable output). -/
inductive ProbeOutcome
  | throws
  | ok (parsed : Option ℚ)
deriving DecidableEq, Repr

/-- Environment for one merge run: probe outcome, the fresh scratch
directory `mkdtempSync` returns, and whether the ffmpeg subprocess exits
successfully. -/
structure MergeEnv where
  probe : ProbeOutcome
  tmpDir : String
  ffmpegOk : Bool
deriving DecidableEq, Repr

/-- Function `mergeAudioWithVideo(videoPath, chunks, outputPath)`.
Empty ledger: return before any effect. Otherwise: probe (a raised probe
error propagates before any temp state exists), make the scratch dir,
write one temp MP3 per chunk, build and run the ffmpeg command inside
`try { execSync(cmd) } finally { unlink each temp file; rmdir the scratch
dir }` — so cleanup runs on the success path and on the raised-subprocess
path alike, and an ffmpeg failure propagates as the result after
cleanup. -/
def mergeAudioWithVideo (fs : FsState) (videoPath : String)
    (chunks : List AudioChunk) (outputPath : String) (env : MergeEnv) :
    FsState × List MergeEffect × Except MergeError Unit :=
  if chunks.length = 0 then (fs, [], .ok ()) else
  match env.probe with
  | .throws => (fs, [.execProbe], .error .probeFailed)
  | .ok videoDuration =>
    let tmpDir := env.tmpDir
    let fs1 := fs.addDir tmpDir
    let tmpFiles := chunkTmpFiles tmpDir chunks.length
    let fs2 := tmpFiles.foldl FsState.addFile fs1
    let cmd := buildFfmpegCmd videoPath chunks outputPath tmpDir videoDuration
    let run : FsState × Except MergeError Unit :=
      if env.ffmpegOk then (fs2.addFile outputPath, .ok ())
      else (fs2, .error .ffmpegFailed)
    let fs3 := tmpFiles.foldl FsState.removeFile run.1
    let fs4 := fs3.removeDir tmpDir
    (fs4,
     [MergeEffect.execProbe, MergeEffect.mkdtemp tmpDir]
       ++ tmpFiles.map MergeEffect.writeChunk
       ++ [MergeEffect.execFfmpeg cmd]
       ++ tmpFiles.map MergeEffect.unlink
       ++ [MergeEffect.rmdir tmpDir],
     run.2)

/-! ## Derived definitions and sample inputs -/

/-- A freshly constructed session (empty heap) observed at wall clock
`clock`. -/
def initialSession (active : Bool) (ttsEnv : Option String) (clock : Int) :
    SessionState :=
  match Tutorial.create Store.empty active ttsEnv with
  | (store, tut) => { tut := tut, store := store, clock := clock }

/-- How long a `_speak` dispatch takes under a given environment. -/
def narrationElapsedMs (backend : TtsBackend) (env : NarrationEnv) : Int :=
  match backend with
  | .webSpeechApi => (env.web.durationMs : Int)
  | .edgeTts =>
    match env.edge.synth with
    | .throws => (env.edge.synthLatencyMs : Int)
    | .ok _ => (env.edge.synthLatencyMs : Int) + (env.edge.playbackMs : Int)

/-- Sample active edge-tts session: constructed, `setStartTime(100)`,
observed at wall clock 600. -/
def sampleEdgeSession : SessionState :=
  Tutorial.setStartTime (initialSession true (some "edge-tts") 600) 100

/-- Sample active edge-tts session whose start time was never set. -/
def sampleNoStartSession : SessionState :=
  initialSession true (some "edge-tts") 900

/-- Sample edge-tts environment: synthesis succeeds after 40 ms with bytes
`[1, 2, 3]`; playback ends normally after 250 ms. -/
def sampleEdgeEnv : EdgeTtsEnv :=
  { synth := .ok [1, 2, 3], synthLatencyMs := 40, playback := .ended, playbackMs := 250 }

/-- Sample Web Speech environment: the utterance ends after 1200 ms. -/
def sampleWebEnv : WebSpeechEnv :=
  { scenario := .utteranceEnd, durationMs := 1200 }

def sampleNarrationEnv : NarrationEnv :=
  { web := sampleWebEnv, edge := sampleEdgeEnv }

/-- Sample highlight request: popover title, 4000 ms display, speech. -/
def sampleHighlightOpts : HighlightOptions :=
  { title := some "Step 1", text := none, timeout := some 4000, speech := some "hello" }

def sampleHighlightEnv : HighlightEnv :=
  { resolve := .resolved, narration := sampleNarrationEnv }

/-- Sample ledger chunks for merge runs. -/
def sampleChunks : List AudioChunk :=
  [{ buffer := [1, 2], offsetMs := 500 }, { buffer := [3], offsetMs := 2600 }]

/-! ## Basic lemmas about the model -/

theorem Store.read_push_self (st : Store) (r : Nat) (c : AudioChunk) :
    (st.push r c).read r = st.read r ++ [c] := by
  simp [Store.push, Store.write, Store.read]

/-- An inactive session's `speak`/`highlight` return the state untouched,
with no effects and no error. -/
theorem runCall_inactive (s : SessionState) (h : s.tut._active = false)
    (c : SessionCall) : runCall s c = (s, [], .ok ()) := by
  cases c with
  | speakCall text env => simp [runCall, Tutorial.speak, h]
  | highlightCall target opts env => simp [runCall, Tutorial.highlight, h]

/-- Any sequence of calls on an inactive session is a complete no-op. -/
theorem runCalls_inactive (s : SessionState) (h : s.tut._active = false)
    (calls : List SessionCall) : runCalls s calls = (s, []) := by
  induction calls with
  | nil => rfl
  | cons c rest ih => simp [runCalls, runCall_inactive s h c, ih]

theorem ensureDriverJs_clock (s : SessionState) :
    (Tutorial._ensureDriverJs s).1.clock = s.clock := by
  unfold Tutorial._ensureDriverJs
  split <;> rfl

theorem ensureDriverJs_backend (s : SessionState) :
    (Tutorial._ensureDriverJs s).1.tut._ttsBackend = s.tut._ttsBackend := by
  unfold Tutorial._ensureDriverJs
  split <;> rfl

theorem speak_clock (s : SessionState) (text : String) (env : NarrationEnv) :
    (Tutorial._speak s text env).1.clock
      = s.clock + narrationElapsedMs s.tut._ttsBackend env := by
  cases hb : s.tut._ttsBackend with
  | webSpeechApi =>
    rcases env with ⟨⟨sc, d⟩, e⟩
    cases sc <;>
      simp [Tutorial._speak, hb, Tutorial._speakWebSpeechApi, narrationElapsedMs]
  | edgeTts =>
    rcases env with ⟨w, ⟨synth, sl, pb, pl⟩⟩
    cases synth <;> cases pb <;>
      simp [Tutorial._speak, hb, Tutorial._speakEdgeTts, Tutorial._speakEdgeTtsRun,
        narrationElapsedMs] <;>
      split <;> (try split) <;> simp [add_assoc]

theorem getLast?_cons_some {α : Type} (x : α) (l : List α) (a : α)
    (h : l.getLast? = some a) : (x :: l).getLast? = some a := by
  cases l with
  | nil => simp [List.getLast?] at h
  | cons y t => rwa [List.getLast?_cons_cons]

theorem removeFile_not_mem (fs : FsState) (f : String) :
    f ∉ (fs.removeFile f).files := by
  simp [FsState.removeFile]

theorem removeFile_preserves_not_mem (fs : FsState) (f g : String)
    (h : f ∉ fs.files) : f ∉ (fs.removeFile g).files := by
  simp only [FsState.removeFile, List.mem_filter]
  rintro ⟨hf, -⟩
  exact h hf

theorem foldl_removeFile_preserves (l : List String) (fs : FsState) (f : String)
    (h : f ∉ fs.files) : f ∉ (l.foldl FsState.removeFile fs).files := by
  induction l generalizing fs with
  | nil => exact h
  | cons a t ih => exact ih _ (removeFile_preserves_not_mem fs f a h)

theorem foldl_removeFile_of_mem (l : List String) (fs : FsState) (f : String)
    (h : f ∈ l) : f ∉ (l.foldl FsState.removeFile fs).files := by
  induction l generalizing fs with
  | nil => cases h
  | cons a t ih =>
    rcases List.mem_cons.mp h with h1 | h1
    · subst h1
      exact foldl_removeFile_preserves t _ f (removeFile_not_mem fs f)
    · exact ih _ h1

theorem removeDir_not_mem (fs : FsState) (d : String) :
    d ∉ (fs.removeDir d).dirs := by
  simp [FsState.removeDir]

/-- With truthy speech text, `_highlightElement` destroys the overlay at
`join start + max(display duration, narration duration)`, and the destroy
evaluation is the last effect of the call. -/
theorem highlightElement_speech_spec (s : SessionState) (opts : HighlightOptions)
    (env : NarrationEnv) (txt : String) (hspeech : speechText opts.speech = some txt) :
    (Tutorial._highlightElement s opts env).1.clock
      = s.clock + max ((opts.timeout.getD DEFAULT_HIGHLIGHT_TIMEOUT : Nat) : Int)
          (narrationElapsedMs s.tut._ttsBackend env) ∧
    (Tutorial._highlightElement s opts env).2.getLast?
      = some ((Tutorial._highlightElement s opts env).1.clock, Effect.evalDestroy) := by
  simp only [Tutorial._highlightElement, hspeech]
  rw [speak_clock, ensureDriverJs_clock, ensureDriverJs_backend]
  constructor
  · simp
  · rw [List.getLast?_concat]

/-- An active `highlight` call on a resolvable target returns normally and
is `_highlightElement` prefixed by the resolution wait. -/
theorem highlight_active_resolved (s : SessionState) (target : Target)
    (opts : HighlightOptions) (env : HighlightEnv)
    (hactive : s.tut._active = true) (hres : env.resolve = .resolved) :
    Tutorial.highlight s target opts env
      = ((Tutorial._highlightElement s opts env.narration).1,
         (s.clock, resolveEffect target)
           :: (Tutorial._highlightElement s opts env.narration).2,
         .ok ()) := by
  rcases h : Tutorial._highlightElement s opts env.narration with ⟨s1, tr⟩
  simp [Tutorial.highlight, hactive, hres, h]

/-! ## Claim theorems -/

/-- C1: for every session constructed with the activation flag `false` and
every sequence of `highlight()`/`speak()` calls with arbitrary inputs, the
calls return immediately with the state untouched — no page evaluation, no
narration dispatch, no ledger append — and the audio-chunk ledger is empty
afterwards. -/
theorem inactive_session_calls_are_noops (ttsEnv : Option String) (clock : Int)
    (calls : List SessionCall) :
    runCalls (initialSession false ttsEnv clock) calls
      = (initialSession false ttsEnv clock, []) ∧
    (runCalls (initialSession false ttsEnv clock) calls).1.store.read
        (Tutorial.getAudioChunks (initialSession false ttsEnv clock)) = [] := by
  have h1 := runCalls_inactive (initialSession false ttsEnv clock) rfl calls
  refine ⟨h1, ?_⟩
  rw [h1]
  rfl

/-- C2 counterexample: `getAudioChunks()` is `return this._audioChunks;` —
it hands out the live ledger array, not an immutable snapshot. On a
concrete active edge-tts session (start time 100, observed at clock 600),
the value returned by `getAudioChunks()` before a narration call reads as
the empty ledger, but after the narration the same value reads as a
one-chunk ledger: the snapshot did not keep its length and contents. -/
theorem getAudioChunks_snapshot_refuted :
    ¬ ((Tutorial.speak sampleEdgeSession "step" sampleNarrationEnv).1.store.read
          (Tutorial.getAudioChunks sampleEdgeSession)
        = sampleEdgeSession.store.read (Tutorial.getAudioChunks sampleEdgeSession)) := by
  decide

/-- C2 amended: `getAudioChunks()` returns the internal ledger array by
reference: the returned reference is exactly the session's
`_audioChunks`, and pushing a chunk through the returned reference
mutates the session's internal ledger. -/
theorem getAudioChunks_aliases_ledger (s : SessionState) (c : AudioChunk) :
    Tutorial.getAudioChunks s = s.tut._audioChunks ∧
    (s.store.push (Tutorial.getAudioChunks s) c).read s.tut._audioChunks
      = s.store.read s.tut._audioChunks ++ [c] :=
  ⟨rfl, Store.read_push_self s.store s.tut._audioChunks c⟩

/-- C3: narration never raises to the caller. For both backends and every
environment — empty voice catalog, utterance error, safety timeout,
synthesis (network/encoding) failure, playback error or rejection — the
narration dispatch `_speak` (the speech part of `highlight`) and the
public `speak` complete with `ok`. -/
theorem narration_never_raises (s : SessionState) (text : String)
    (env : NarrationEnv) :
    (Tutorial._speak s text env).2.2 = .ok () ∧
    (Tutorial.speak s text env).2.2 = .ok () := by
  have hd : (Tutorial._speak s text env).2.2 = .ok () := by
    cases hb : s.tut._ttsBackend with
    | webSpeechApi =>
      rcases env with ⟨⟨sc, d⟩, e⟩
      cases sc <;> simp [Tutorial._speak, hb, Tutorial._speakWebSpeechApi]
    | edgeTts =>
      rcases env with ⟨w, e⟩
      rcases h : Tutorial._speakEdgeTtsRun s text e with ⟨s1, tr, r⟩
      simp [Tutorial._speak, hb, Tutorial._speakEdgeTts, h]
  refine ⟨hd, ?_⟩
  unfold Tutorial.speak
  split
  · exact hd
  · rfl

/-- C4: for every active highlight call with (truthy) speech text on a
resolvable target, the display-duration wait and the narration wait are
joined, not raced: the call ends at `start + max(display, narration)` —
hence total wall time is at least each of the two — and the
overlay-destroy evaluation is the last effect, issued at exactly that
joined instant. -/
theorem highlight_speech_join_not_race (s : SessionState) (target : Target)
    (opts : HighlightOptions) (env : HighlightEnv) (txt : String)
    (hactive : s.tut._active = true) (hres : env.resolve = .resolved)
    (hspeech : opts.speech = some txt) (hne : txt ≠ "") :
    (Tutorial.highlight s target opts env).2.2 = .ok () ∧
    (Tutorial.highlight s target opts env).1.clock
      = s.clock + max ((opts.timeout.getD DEFAULT_HIGHLIGHT_TIMEOUT : Nat) : Int)
          (narrationElapsedMs s.tut._ttsBackend env.narration) ∧
    s.clock + ((opts.timeout.getD DEFAULT_HIGHLIGHT_TIMEOUT : Nat) : Int)
      ≤ (Tutorial.highlight s target opts env).1.clock ∧
    s.clock + narrationElapsedMs s.tut._ttsBackend env.narration
      ≤ (Tutorial.highlight s target opts env).1.clock ∧
    (Tutorial.highlight s target opts env).2.1.getLast?
      = some ((Tutorial.highlight s target opts env).1.clock, Effect.evalDestroy) := by
  have hsp : speechText opts.speech = some txt := by
    simp [speechText, hspeech, String.isEmpty_iff, hne]
  have hspec := highlightElement_speech_spec s opts env.narration txt hsp
  rw [highlight_active_resolved s target opts env hactive hres]
  refine ⟨rfl, hspec.1, ?_, ?_, ?_⟩
  · rw [hspec.1]
    exact add_le_add_left (le_max_left _ _) _
  · rw [hspec.1]
    exact add_le_add_left (le_max_right _ _) _
  · exact getLast?_cons_some _ _ _ hspec.2

/-- C4 witness: on the sample session (clock 600) with display duration
4000 ms and narration taking 40 + 250 = 290 ms, the call ends and the
overlay is destroyed at clock 600 + max(4000, 290) = 4600. -/
theorem highlight_speech_join_not_race_witness :
    (Tutorial.highlight sampleEdgeSession (Target.selector "#btn")
        sampleHighlightOpts sampleHighlightEnv).1.clock = 4600 ∧
    (Tutorial.highlight sampleEdgeSession (Target.selector "#btn")
        sampleHighlightOpts sampleHighlightEnv).2.1.getLast?
      = some (4600, Effect.evalDestroy) := by
  have h := highlight_speech_join_not_race sampleEdgeSession (Target.selector "#btn")
    sampleHighlightOpts sampleHighlightEnv "hello" rfl rfl rfl (by decide)
  exact ⟨h.2.1.trans (by decide), h.2.2.2.2.trans (by decide)⟩

/-- C5: on a session whose start time was never set (the constructed
default `_startTime = 0`), a remote-synthesis narration leaves the heap —
hence the ledger — untouched, and raises no error. -/
theorem no_start_time_drops_chunk (s : SessionState) (text : String)
    (env : EdgeTtsEnv) (h0 : s.tut._startTime = 0) :
    (Tutorial._speakEdgeTts s text env).1.store = s.store ∧
    (Tutorial._speakEdgeTts s text env).2.2 = .ok () := by
  rcases env with ⟨synth, sl, pb, pl⟩
  cases synth <;> cases pb <;>
    simp [Tutorial._speakEdgeTts, Tutorial._speakEdgeTtsRun, h0]

/-- C5 witness: on the sample never-started session, a successful
remote narration appends nothing and returns ok. -/
theorem no_start_time_drops_chunk_witness :
    (Tutorial._speakEdgeTts sampleNoStartSession "hello" sampleEdgeEnv).1.store
        = sampleNoStartSession.store ∧
    (Tutorial._speakEdgeTts sampleNoStartSession "hello" sampleEdgeEnv).2.2 = .ok () :=
  no_start_time_drops_chunk sampleNoStartSession "hello" sampleEdgeEnv rfl

/-- C6: with a positive start time and the narration call beginning at
wall clock `s.clock ≥ start`, the appended chunk's offset is exactly
`s.clock - start`, captured before synthesis: the synthesis latency and
playback duration (quantified inside `env`) do not occur in it. -/
theorem edge_offset_excludes_latency (s : SessionState) (text : String)
    (env : EdgeTtsEnv) (buf : List Nat)
    (hstart : 0 < s.tut._startTime) (hclock : s.tut._startTime ≤ s.clock)
    (hsynth : env.synth = .ok buf) :
    (Tutorial._speakEdgeTts s text env).1.store.read s.tut._audioChunks
      = s.store.read s.tut._audioChunks
          ++ [{ buffer := buf, offsetMs := s.clock - s.tut._startTime }] := by
  rcases env with ⟨synth, sl, pb, pl⟩
  subst hsynth
  have hge : (0 : Int) ≤ s.clock - s.tut._startTime := sub_nonneg.mpr hclock
  cases pb <;>
    simp [Tutorial._speakEdgeTts, Tutorial._speakEdgeTtsRun, hstart, hge,
      Store.read_push_self]

/-- C6 witness: start time 100, call at clock 600, synthesis latency
40 ms: the chunk's offset is 500, not 540. -/
theorem edge_offset_excludes_latency_witness :
    (Tutorial._speakEdgeTts sampleEdgeSession "hi" sampleEdgeEnv).1.store.read
        sampleEdgeSession.tut._audioChunks
      = sampleEdgeSession.store.read sampleEdgeSession.tut._audioChunks
          ++ [{ buffer := [1, 2, 3], offsetMs := 500 }] := by
  have h := edge_offset_excludes_latency sampleEdgeSession "hi" sampleEdgeEnv
    [1, 2, 3] (by decide) (by decide) rfl
  exact h.trans (by decide)

/-- C7: merging with an empty chunk ledger performs no work: the
filesystem is untouched (no temp files, no output file), the effect trace
is empty (no subprocess), and the call returns normally. -/
theorem merge_empty_ledger_noop (fs : FsState) (videoPath outputPath : String)
    (env : MergeEnv) :
    mergeAudioWithVideo fs videoPath [] outputPath env = (fs, [], .ok ()) := rfl

/-- C8: an unparsable (NaN) or non-positive probe result is treated as
unknown duration rather than a fatal error — the merge still executes the
built ffmpeg command and its outcome depends only on that subprocess —
and in that case the command has no silent bed and mixes exactly the
delayed chunks; a positive probed duration yields a silent bed spanning
it, mixed alongside all the delayed chunks. -/
theorem merge_probe_duration_handling (fs : FsState)
    (videoPath outputPath tmpDir : String) (chunks : List AudioChunk)
    (dur : Option ℚ) (ffmpegOk : Bool) (hne : chunks ≠ []) :
    (MergeEffect.execFfmpeg (buildFfmpegCmd videoPath chunks outputPath tmpDir dur)
        ∈ (mergeAudioWithVideo fs videoPath chunks outputPath
            ⟨.ok dur, tmpDir, ffmpegOk⟩).2.1) ∧
    (mergeAudioWithVideo fs videoPath chunks outputPath
        ⟨.ok dur, tmpDir, ffmpegOk⟩).2.2
      = (if ffmpegOk then .ok () else .error .ffmpegFailed) ∧
    ((dur = none ∨ ∃ q, dur = some q ∧ q ≤ 0) →
      (buildFfmpegCmd videoPath chunks outputPath tmpDir dur).silence = none ∧
      (buildFfmpegCmd videoPath chunks outputPath tmpDir dur).amixInputs
        = chunks.length) ∧
    (∀ q : ℚ, dur = some q → 0 < q →
      (buildFfmpegCmd videoPath chunks outputPath tmpDir dur).silence = some q ∧
      (buildFfmpegCmd videoPath chunks outputPath tmpDir dur).amixInputs
        = chunks.length + 1) := by
  have hlen : ¬ (chunks.length = 0) := by simpa using hne
  refine ⟨?_, ?_, ?_, ?_⟩
  · simp [mergeAudioWithVideo, hlen]
  · cases ffmpegOk <;> simp [mergeAudioWithVideo, hlen]
  · rintro (h | ⟨q, rfl, hq⟩)
    · subst h
      simp [buildFfmpegCmd]
    · simp [buildFfmpegCmd, decide_eq_false (not_lt.mpr hq)]
  · rintro q rfl hq
    simp [buildFfmpegCmd, decide_eq_true hq]

/-- C8 witness: two chunks with a probed duration of 30 s: the command
carries a 30 s silent bed and mixes 3 inputs; the merge returns ok. -/
theorem merge_probe_duration_handling_witness :
    (buildFfmpegCmd "v.webm" sampleChunks "out.webm" "tmp" (some 30)).silence
      = some 30 ∧
    (buildFfmpegCmd "v.webm" sampleChunks "out.webm" "tmp" (some 30)).amixInputs = 3 ∧
    (mergeAudioWithVideo ⟨[], []⟩ "v.webm" sampleChunks "out.webm"
        ⟨.ok (some 30), "tmp", true⟩).2.2 = .ok () := by
  have h := merge_probe_duration_handling ⟨[], []⟩ "v.webm" "out.webm" "tmp"
    sampleChunks (some 30) true (by decide)
  refine ⟨(h.2.2.2 30 rfl (by norm_num)).1, ?_, ?_⟩
  · have h2 := (h.2.2.2 30 rfl (by norm_num)).2
    simpa using h2
  · simpa using h.2.1

/-- C9: on every exit path of the merge that reaches temp-file
materialization — the successful run and the raised ffmpeg failure alike —
every temporary chunk file and the scratch directory are removed before
the call returns or propagates the error. -/
theorem merge_cleanup_on_all_paths (fs : FsState)
    (videoPath outputPath tmpDir : String) (chunks : List AudioChunk)
    (dur : Option ℚ) (ffmpegOk : Bool) (hne : chunks ≠ []) :
    (∀ f ∈ chunkTmpFiles tmpDir chunks.length,
        f ∉ (mergeAudioWithVideo fs videoPath chunks outputPath
              ⟨.ok dur, tmpDir, ffmpegOk⟩).1.files) ∧
    tmpDir ∉ (mergeAudioWithVideo fs videoPath chunks outputPath
        ⟨.ok dur, tmpDir, ffmpegOk⟩).1.dirs ∧
    (mergeAudioWithVideo fs videoPath chunks outputPath
        ⟨.ok dur, tmpDir, ffmpegOk⟩).2.2
      = (if ffmpegOk then .ok () else .error .ffmpegFailed) := by
  have hlen : ¬ (chunks.length = 0) := by simpa using hne
  refine ⟨?_, ?_, ?_⟩
  · intro f hf
    simp only [mergeAudioWithVideo, hlen, if_false, FsState.removeDir]
    exact foldl_removeFile_of_mem _ _ f hf
  · simp only [mergeAudioWithVideo, hlen, if_false]
    exact removeDir_not_mem _ tmpDir
  · cases ffmpegOk <;> simp [mergeAudioWithVideo, hlen]

/-- C9 witness: a forced ffmpeg failure with two chunks: both temp chunk
files and the scratch dir are gone, and the failure propagates. -/
theorem merge_cleanup_on_all_paths_witness :
    ("tmp/chunk-0.mp3" ∉ (mergeAudioWithVideo ⟨["keep.txt"], ["keep"]⟩ "v.webm"
        sampleChunks "out.webm" ⟨.ok none, "tmp", false⟩).1.files) ∧
    ("tmp" ∉ (mergeAudioWithVideo ⟨["keep.txt"], ["keep"]⟩ "v.webm"
        sampleChunks "out.webm" ⟨.ok none, "tmp", false⟩).1.dirs) ∧
    (mergeAudioWithVideo ⟨["keep.txt"], ["keep"]⟩ "v.webm" sampleChunks "out.webm"
        ⟨.ok none, "tmp", false⟩).2.2 = .error .ffmpegFailed := by
  have h := merge_cleanup_on_all_paths ⟨["keep.txt"], ["keep"]⟩ "v.webm" "out.webm"
    "tmp" sampleChunks none false (by decide)
  exact ⟨h.1 "tmp/chunk-0.mp3" (by decide), h.2.1, h.2.2.trans (by rfl)⟩

/-- C10: `setStartTime(t)` with `t ≤ 0` leaves the session behaving as if
no start time was ever recorded: the recorded-start check `_startTime > 0`
fails, so a subsequent remote-synthesis narration computes no valid
offset, appends no chunk (the heap is untouched) and raises no error. -/
theorem nonpositive_start_time_behaves_unset (s : SessionState) (t : Int)
    (text : String) (env : EdgeTtsEnv) (ht : t ≤ 0) :
    (Tutorial._speakEdgeTts (Tutorial.setStartTime s t) text env).1.store
      = s.store ∧
    (Tutorial._speakEdgeTts (Tutorial.setStartTime s t) text env).2.2 = .ok () := by
  have h' : ¬ (0 < t) := not_lt.mpr ht
  rcases env with ⟨synth, sl, pb, pl⟩
  cases synth <;> cases pb <;>
    simp [Tutorial._speakEdgeTts, Tutorial._speakEdgeTtsRun, Tutorial.setStartTime, h']

/-- C10 witness: `setStartTime(-5)` followed by a successful remote
narration: no chunk appended, no error. -/
theorem nonpositive_start_time_behaves_unset_witness :
    (Tutorial._speakEdgeTts (Tutorial.setStartTime sampleNoStartSession (-5)) "hi"
        sampleEdgeEnv).1.store = sampleNoStartSession.store ∧
    (Tutorial._speakEdgeTts (Tutorial.setStartTime sampleNoStartSession (-5)) "hi"
        sampleEdgeEnv).2.2 = .ok () :=
  nonpositive_start_time_behaves_unset sampleNoStartSession (-5) "hi" sampleEdgeEnv
    (by norm_num)

end PwTutorial
